import Mathlib

/-!
Shallow embedding of `src/discrete-graphic-disabler.c`, a kernel module that
powers a discrete graphics device down on load and restores it on unload.

External collaborators are modelled explicitly:
* PCI configuration reads (`pci_read_config_dword` at offset 0) return the
  device's id word while the device is powered, and the all-ones pattern
  while it is powered down (the canonical "device absent" signature).
* ACPI method evaluation (`acpi_evaluate_object` of "_OFF" / "_ON") powers
  the device down / up; it exposes no status channel.
* `pm_runtime_get_sync` / `pm_runtime_put_sync` on the parent bridge are
  recorded as trace actions so that reference-count balance is observable.
* `register_pm_notifier` / `unregister_pm_notifier` are modelled by the
  `nbRegistered` flag.

Every operation returns, besides its state, a trace of the externally
visible actions it performed, in order.
-/

namespace DiscreteDisabler

/-- enum at src lines 24-28. -/
def GPU_UNCHANGED : Int := -1

/-- enum at src lines 24-28. -/
def GPU_DISABLE : Int := 0

/-- enum at src lines 24-28. -/
def GPU_ENABLE : Int := 1

/-- PCI class codes (`pdev->class >> 8`). -/
def PCI_CLASS_DISPLAY_VGA : Nat := 0x0300

def PCI_CLASS_DISPLAY_3D : Nat := 0x0302

def PCI_CLASS_DISPLAY_OTHER : Nat := 0x0380

def PCI_VENDOR_ID_INTEL : Nat := 0x8086

/-- PM notifier event codes from `include/linux/suspend.h`. -/
def PM_HIBERNATION_PREPARE : Nat := 1

def PM_POST_HIBERNATION : Nat := 2

def PM_SUSPEND_PREPARE : Nat := 3

def PM_POST_SUSPEND : Nat := 4

def PM_RESTORE_PREPARE : Nat := 5

def PM_POST_RESTORE : Nat := 6

def ENODEV : Int := 19

/-- The all-ones 32-bit configuration word, 2^32 - 1. -/
def allOnes32 : Nat := 4294967295

/-- A PCI device as the module sees it: vendor id, class code
(already shifted right by 8 as in `int pci_class = pdev->class >> 8`),
the ACPI handle resolved for it (none when `DEVICE_ACPI_HANDLE` fails),
whether a driver has claimed it (`pdev->driver`), whether it sits behind a
parent bridge (`pdev->bus && pdev->bus->self`), the id word its
configuration space reads while powered, and its current power. -/
structure PDev where
  vendor : Nat
  pciClass : Nat
  acpiHandle : Option Nat
  driver : Bool
  hasParent : Bool
  devWord : Nat
  hwOn : Bool
deriving DecidableEq

/-- Externally visible actions, in program order. -/
inductive Act where
  | guardGet
  | guardPut
  | fwEval (method : String)
  | logOff
  | logOn
  | warnRefuse
deriving DecidableEq

/-- Outcome of `discrete_off` (src lines 81-110): the three early-return /
fallthrough paths of the C function, distinguishable by their log output. -/
inductive OffRes where
  | alreadyOff
  | safetyRefused
  | poweredOff
deriving DecidableEq

/-- The module's global state after discovery: `dis_dev` (with `dis_handle`
inside `acpiHandle`), `discrete_state`, `load_discrete_state`, and whether
the PM notifier is registered (`nb.notifier_call`). -/
structure Ctl where
  dis : PDev
  discrete_state : Int
  load_discrete_state : Int
  nbRegistered : Bool
deriving DecidableEq

/-- Environment model of `pci_read_config_dword(dis_dev, 0, &cfg_word)`:
a powered device returns its id word (truncated to 32 bits), a powered-down
device reads back all-ones. -/
def cfgRead (d : PDev) : Nat :=
  if d.hwOn then d.devWord % 4294967296 else allOnes32

/-- src lines 54-66: `~cfg_word` on a `u32` is `allOnes32 - cfg_word`;
it is nonzero exactly when some bit of `cfg_word` is clear. -/
def get_discrete_state (cfg_word : Nat) : Int :=
  if allOnes32 - cfg_word % 4294967296 ≠ 0 then GPU_ENABLE else GPU_DISABLE

/-- src lines 70-73: bump the parent bridge's runtime-PM reference, a no-op
when there is no parent. The state is unchanged; the acquisition is traced. -/
def dis_dev_get (s : Ctl) : Ctl × List Act :=
  (s, if s.dis.hasParent then [Act.guardGet] else [])

/-- src lines 75-78. -/
def dis_dev_put (s : Ctl) : Ctl × List Act :=
  (s, if s.dis.hasParent then [Act.guardPut] else [])

/-- src lines 81-110: re-query the oracle; no-op when already disabled;
refuse when a driver claims the device; otherwise evaluate "_OFF" (which
powers the hardware down) and record `discrete_state = GPU_DISABLE`.
`Act.logOff` is the unconditional `pr_info("turning discrete off")`. -/
def discrete_off (s : Ctl) : Ctl × List Act × OffRes :=
  if get_discrete_state (cfgRead s.dis) = GPU_DISABLE then
    (s, [Act.logOff], OffRes.alreadyOff)
  else if s.dis.driver then
    (s, [Act.logOff, Act.warnRefuse], OffRes.safetyRefused)
  else
    ({ s with dis := { s.dis with hwOn := false }, discrete_state := GPU_DISABLE },
     [Act.logOff, Act.fwEval "_OFF"], OffRes.poweredOff)

/-- src lines 113-127: re-query the oracle; no-op when already enabled;
otherwise evaluate "_ON" (which powers the hardware up) and record
`discrete_state = GPU_ENABLE`. -/
def discrete_on (s : Ctl) : Ctl × List Act :=
  if get_discrete_state (cfgRead s.dis) = GPU_ENABLE then
    (s, [Act.logOn])
  else
    ({ s with dis := { s.dis with hwOn := true }, discrete_state := GPU_ENABLE },
     [Act.logOn, Act.fwEval "_ON"])

/-- src lines 130-163: the PM notifier callback. Always returns 0. -/
def discrete_pm_handler (event_type : Nat) (s : Ctl) : Ctl × List Act × Int :=
  if event_type = PM_HIBERNATION_PREPARE ∨ event_type = PM_SUSPEND_PREPARE then
    if s.load_discrete_state = GPU_ENABLE ∧ s.discrete_state = GPU_DISABLE then
      let g := dis_dev_get s
      let o := discrete_on g.1
      let p := dis_dev_put o.1
      (p.1, g.2 ++ o.2 ++ p.2, 0)
    else (s, [], 0)
  else if event_type = PM_POST_HIBERNATION ∨ event_type = PM_POST_SUSPEND ∨
          event_type = PM_POST_RESTORE then
    if s.load_discrete_state = GPU_ENABLE ∧ s.discrete_state = GPU_ENABLE then
      let g := dis_dev_get s
      let o := discrete_off g.1
      let p := dis_dev_put o.1
      (p.1, g.2 ++ o.2.1 ++ p.2, 0)
    else (s, [], 0)
  else (s, [], 0)

/-- src lines 178-180: the three display classes the loop keeps. -/
def isGfxClass (c : Nat) : Bool :=
  c = PCI_CLASS_DISPLAY_VGA || c = PCI_CLASS_DISPLAY_3D || c = PCI_CLASS_DISPLAY_OTHER

/-- A device the loop would classify as the discrete target: graphics
class, resolvable ACPI handle, vendor not Intel. -/
def candB (d : PDev) : Bool :=
  (isGfxClass d.pciClass && d.acpiHandle.isSome) && (d.vendor != PCI_VENDOR_ID_INTEL)

/-- One classification of the scan loop body (src lines 195-205): a
graphics-class device with a resolved handle becomes the integrated device
when its vendor is Intel and otherwise overwrites the discrete slot. -/
def classifyStep (st : Option (PDev × Nat) × Option (PDev × Nat)) (d : PDev) :
    Option (PDev × Nat) × Option (PDev × Nat) :=
  if isGfxClass d.pciClass then
    match d.acpiHandle with
    | none => st
    | some h =>
      if d.vendor = PCI_VENDOR_ID_INTEL then (some (d, h), st.2) else (st.1, some (d, h))
  else st

/-- Result of the discovery loop: the integrated and discrete
classifications, the devices the loop actually examined (in order), and
the tail of the enumeration it never reached because of the break. -/
structure ScanRes where
  igd : Option (PDev × Nat)
  dis : Option (PDev × Nat)
  processed : List PDev
  remaining : List PDev
deriving DecidableEq

/-- src lines 173-213: the `pci_get_device` loop. Devices that are not
graphics class or have no ACPI handle are skipped with `continue`, which
also skips the break check; after classifying a device the loop breaks
once both the integrated and the discrete handle are known. -/
def scanLoop : Option (PDev × Nat) → Option (PDev × Nat) → List PDev → ScanRes
  | igd, dis, [] => ⟨igd, dis, [], []⟩
  | igd, dis, d :: ds =>
    if isGfxClass d.pciClass && d.acpiHandle.isSome then
      let st := classifyStep (igd, dis) d
      if st.1.isSome && st.2.isSome then
        ⟨st.1, st.2, [d], ds⟩
      else
        let r := scanLoop st.1 st.2 ds
        ⟨r.igd, r.dis, d :: r.processed, r.remaining⟩
    else
      let r := scanLoop igd dis ds
      ⟨r.igd, r.dis, d :: r.processed, r.remaining⟩

/-- The last device of a list that `candB` accepts, if any. -/
def lastCandidate : List PDev → Option PDev
  | [] => none
  | d :: l =>
    match lastCandidate l with
    | some x => some x
    | none => if candB d then some d else none

/-- src lines 165-244: module init. Scan the bus; fail with `-ENODEV` when
no discrete device was classified; otherwise take the power-domain
reference, snapshot `load_discrete_state`, and either do nothing (already
disabled) or run `discrete_off` and register the PM notifier; finally drop
the reference (`nothing:` label). -/
def discrete_disabler_init (devs : List PDev) : Option Ctl × List Act × Int :=
  match (scanLoop none none devs).dis with
  | none => (none, [], -ENODEV)
  | some (d, _) =>
    let s0 : Ctl := { dis := d, discrete_state := GPU_UNCHANGED,
                      load_discrete_state := GPU_UNCHANGED, nbRegistered := false }
    let g := dis_dev_get s0
    let s1 := { g.1 with load_discrete_state := get_discrete_state (cfgRead g.1.dis) }
    if s1.load_discrete_state = GPU_DISABLE then
      let p := dis_dev_put s1
      (some p.1, g.2 ++ p.2, 0)
    else
      let o := discrete_off s1
      let s2 := { o.1 with nbRegistered := true }
      let p := dis_dev_put s2
      (some p.1, g.2 ++ o.2.1 ++ p.2, 0)

/-- src lines 246-275: module exit, translated branch for branch. Note the
early `return` in the `discrete_state == GPU_ENABLE` branch: the C code
returns there after `dis_dev_get()` without reaching `dis_dev_put()` or
`unregister_pm_notifier()`. -/
def discrete_disabler_exit (os : Option Ctl) : Option Ctl × List Act :=
  match os with
  | none => (none, [])
  | some s =>
    if s.dis.acpiHandle = none then (some s, [])
    else if s.load_discrete_state = GPU_DISABLE then (some s, [])
    else
      let g := dis_dev_get s
      if g.1.discrete_state = GPU_ENABLE then
        (some g.1, g.2)
      else
        let o := discrete_on g.1
        let p := dis_dev_put o.1
        let s2 := if p.1.nbRegistered then { p.1 with nbRegistered := false } else p.1
        (some s2, g.2 ++ o.2 ++ p.2)

/-- Trace predicate: a power-domain acquisition. -/
def isGet : Act → Bool
  | Act.guardGet => true
  | _ => false

/-- Trace predicate: a power-domain release. -/
def isPut : Act → Bool
  | Act.guardPut => true
  | _ => false

/-- Trace predicate: any ACPI control-method evaluation. -/
def isFw : Act → Bool
  | Act.fwEval _ => true
  | _ => false

/-- Trace predicate: an ACPI "_OFF" evaluation. -/
def isFwOff : Act → Bool
  | Act.fwEval m => m == "_OFF"
  | _ => false

/-- Fixture: an unclaimed, powered NVIDIA VGA device behind a bridge. -/
def devA : PDev := ⟨0x10de, 0x0300, some 10, false, true, 0x1234, true⟩

/-- Fixture: an Intel VGA device. -/
def devIntel : PDev := ⟨0x8086, 0x0300, some 11, false, true, 0x8086, true⟩

/-- Fixture: a non-graphics device. -/
def devNonGfx : PDev := ⟨0x10de, 0x0200, some 12, false, true, 0x1234, true⟩

/-- Fixture: a powered NVIDIA VGA device claimed by a driver. -/
def devClaimed : PDev := ⟨0x10de, 0x0300, some 13, true, true, 0x1234, true⟩

/-- Fixture: a second discrete (ATI 3D-class) device. -/
def devB : PDev := ⟨0x1002, 0x0302, some 14, false, true, 0x4321, true⟩

/-- Fixture for C1: module state at exit time with the card re-enabled
(`discrete_state = GPU_ENABLE`) while the notifier is registered. -/
def sLeak : Ctl := ⟨devA, GPU_ENABLE, GPU_ENABLE, true⟩

/-- Fixture for C3: a claimed device whose configuration space already
reads all-ones (powered down), before any transition ran. -/
def sC3x : Ctl := ⟨⟨0x10de, 0x0300, some 13, true, true, 0x1234, false⟩,
                  GPU_UNCHANGED, GPU_ENABLE, true⟩

/-- Fixture for the C3 witness: a claimed, powered device. -/
def sC3w : Ctl := ⟨devClaimed, GPU_ENABLE, GPU_ENABLE, true⟩

/-- Fixture for C4: the device of the reachable exit-leak scenario. -/
def devA4 : PDev := ⟨0x10de, 0x0300, some 20, false, true, 0x2468, true⟩

/-- Fixture for C4: the module state right after `discrete_disabler_init
[devA4]` (card powered off, notifier registered). -/
def s4_init : Ctl := ⟨⟨0x10de, 0x0300, some 20, false, true, 0x2468, false⟩,
                     GPU_DISABLE, GPU_ENABLE, true⟩

/-- Fixture for C4: the module state after the pre-suspend event re-enabled
the card. -/
def s4_prep : Ctl := ⟨⟨0x10de, 0x0300, some 20, false, true, 0x2468, true⟩,
                     GPU_ENABLE, GPU_ENABLE, true⟩

/-- Fixture for the C2 witness: the controller state produced by
`discrete_disabler_init [devA]`. -/
def sW2 : Ctl := ⟨⟨0x10de, 0x0300, some 10, false, true, 0x1234, false⟩,
                 GPU_DISABLE, GPU_ENABLE, true⟩

/-- Fixture for the C2 witness: the trace produced by
`discrete_disabler_init [devA]`. -/
def tW2 : List Act := [Act.guardGet, Act.logOff, Act.fwEval "_OFF", Act.guardPut]

/-- Fixture for the C5 witness: load state Enabled, current state Disabled. -/
def s5 : Ctl := ⟨devA, GPU_DISABLE, GPU_ENABLE, true⟩

/-- Fixture for the C8 witness: fresh controller on a powered device. -/
def s8 : Ctl := ⟨devA, GPU_UNCHANGED, GPU_UNCHANGED, false⟩

lemma oracle_disable_iff (w : Nat) :
    get_discrete_state w = GPU_DISABLE ↔ w % 4294967296 = allOnes32 := by
  unfold get_discrete_state allOnes32
  have hlt : w % 4294967296 < 4294967296 := Nat.mod_lt _ (by norm_num)
  split_ifs with h
  · constructor
    · intro hc; exact absurd hc (by decide)
    · intro heq; omega
  · simp only [ne_eq, not_not] at h
    constructor
    · intro _; omega
    · intro _; rfl

lemma oracle_total (w : Nat) :
    get_discrete_state w = GPU_ENABLE ∨ get_discrete_state w = GPU_DISABLE := by
  unfold get_discrete_state
  split_ifs
  · exact Or.inl rfl
  · exact Or.inr rfl

lemma oracle_enable_iff (w : Nat) :
    get_discrete_state w = GPU_ENABLE ↔ w % 4294967296 ≠ allOnes32 := by
  rcases oracle_total w with h | h
  · refine iff_of_true h ?_
    intro heq
    have hd := (oracle_disable_iff w).mpr heq
    rw [h] at hd
    exact absurd hd (by decide)
  · have hw := (oracle_disable_iff w).mp h
    refine iff_of_false ?_ ?_
    · rw [h]; decide
    · intro hne; exact hne hw

/-- C7: the Power State Oracle reports Disabled exactly when the 32-bit
configuration word is all-ones, and Enabled otherwise; it is a pure
query of the register value. -/
theorem get_discrete_state_all_ones (w : Nat) :
    (get_discrete_state w = GPU_DISABLE ↔ w % 4294967296 = allOnes32) ∧
    (get_discrete_state w = GPU_ENABLE ↔ w % 4294967296 ≠ allOnes32) :=
  ⟨oracle_disable_iff w, oracle_enable_iff w⟩

/-- Witness for C7 at the all-ones word and at zero. -/
theorem get_discrete_state_all_ones_witness :
    get_discrete_state 4294967295 = GPU_DISABLE ∧ get_discrete_state 0 = GPU_ENABLE :=
  ⟨(get_discrete_state_all_ones 4294967295).1.mpr (by decide),
   (get_discrete_state_all_ones 0).2.mpr (by decide)⟩

/-- C1: evaluation of the shutdown path with `discrete_state = GPU_ENABLE`:
the acquisition made by `dis_dev_get` is never matched — the trace holds
one acquisition and zero releases, refuting guard balance on this path. -/
theorem exit_enabled_path_leaks_guard :
    (discrete_disabler_exit (some sLeak)).2.countP isGet = 1 ∧
    (discrete_disabler_exit (some sLeak)).2.countP isPut = 0 ∧
    (discrete_disabler_exit (some sLeak)).1 = some sLeak := by decide

/-- C4: a reachable run (init on one unclaimed discrete device, then the
pre-suspend event, then exit): exit runs into the early return of the
`discrete_state == GPU_ENABLE` branch, emitting one guard acquisition with
no release and leaving the notifier registered. -/
theorem exit_enabled_path_skips_unregister :
    (discrete_disabler_init [devA4]).1 = some s4_init ∧
    (discrete_pm_handler PM_SUSPEND_PREPARE s4_init).1 = s4_prep ∧
    discrete_disabler_exit (some s4_prep) = (some s4_prep, [Act.guardGet]) ∧
    s4_prep.nbRegistered = true := by decide

/-- Counterexample for C2: startup on a claimed device whose load state
reads Enabled. `discrete_off` refuses (the warning is in the trace, no
firmware call happens), yet the notifier is registered anyway. -/
theorem init_registers_despite_refusal :
    (discrete_disabler_init [devClaimed]).1.map Ctl.nbRegistered = some true ∧
    Act.warnRefuse ∈ (discrete_disabler_init [devClaimed]).2.1 ∧
    (discrete_disabler_init [devClaimed]).2.1.countP isFw = 0 := by decide

/-- Counterexample for C3: a state where the device reports claimed but its
configuration word already reads all-ones. `discrete_off` returns via the
already-disabled path, so no SafetyRefused signal is raised, and
`discrete_state` does not equal Enabled afterwards. -/
theorem off_claimed_not_refused_cex :
    sC3x.dis.driver = true ∧
    (discrete_off sC3x).2.2 ≠ OffRes.safetyRefused ∧
    (discrete_off sC3x).1.discrete_state ≠ GPU_ENABLE := by decide

/-- C3 (amended): whenever the device reports claimed, `discrete_off`
issues no firmware call and leaves the controller state (in particular
`discrete_state`) unchanged; the SafetyRefused signal is raised exactly
when the oracle re-query reads Enabled — when it reads Disabled the call
returns via the already-disabled no-op without a refusal. -/
theorem off_claimed_no_firmware (s : Ctl) (h : s.dis.driver = true) :
    (discrete_off s).1 = s ∧
    (discrete_off s).2.1.countP isFw = 0 ∧
    ((discrete_off s).2.2 = OffRes.safetyRefused ↔
      get_discrete_state (cfgRead s.dis) = GPU_ENABLE) := by
  by_cases hd : get_discrete_state (cfgRead s.dis) = GPU_DISABLE
  · have hred : discrete_off s = (s, [Act.logOff], OffRes.alreadyOff) := by
      unfold discrete_off; rw [if_pos hd]
    rw [hred]
    refine ⟨rfl, rfl, iff_of_false (fun hx => OffRes.noConfusion hx) ?_⟩
    intro hEn
    rw [hd] at hEn
    exact absurd hEn (by decide)
  · have hEn : get_discrete_state (cfgRead s.dis) = GPU_ENABLE := by
      rcases oracle_total (cfgRead s.dis) with he | he
      · exact he
      · exact absurd he hd
    have hred : discrete_off s = (s, [Act.logOff, Act.warnRefuse], OffRes.safetyRefused) := by
      unfold discrete_off; rw [if_neg hd, if_pos h]
    rw [hred]
    exact ⟨rfl, rfl, iff_of_true rfl hEn⟩

/-- Witness for C3 at a claimed, powered device. -/
theorem off_claimed_no_firmware_witness :
    (discrete_off sC3w).1 = sC3w ∧
    (discrete_off sC3w).2.1.countP isFw = 0 ∧
    ((discrete_off sC3w).2.2 = OffRes.safetyRefused ↔
      get_discrete_state (cfgRead sC3w.dis) = GPU_ENABLE) :=
  off_claimed_no_firmware sC3w rfl

lemma discrete_off_preserves_load (s : Ctl) :
    (discrete_off s).1.load_discrete_state = s.load_discrete_state := by
  unfold discrete_off
  split_ifs <;> rfl

/-- C2 (amended): after a successful startup the Sleep-Cycle Coordinator is
registered exactly when LoadTimeState read Enabled — registration does not
depend on whether `discrete_off` was refused, because `discrete_off`
exposes no success signal to its caller. -/
theorem init_registers_iff_load_enabled (devs : List PDev) (s : Ctl) (t : List Act)
    (r : Int) (h : discrete_disabler_init devs = (some s, t, r)) :
    (s.nbRegistered = true ↔ s.load_discrete_state = GPU_ENABLE) := by
  revert h
  unfold discrete_disabler_init
  cases (scanLoop none none devs).dis with
  | none => intro h; simp at h
  | some p =>
    obtain ⟨d, hdl⟩ := p
    intro h
    split at h
    next hcond => exact Option.noConfusion hcond
    next d2 hdl2 hcond =>
      injection hcond with hp
      injection hp with h1 h2
      subst h1
      simp only [] at h
      split at h
      next hcond2 =>
        simp only [Prod.mk.injEq, Option.some.injEq] at h
        obtain ⟨h1, h2, h3⟩ := h
        subst h1
        refine iff_of_false (by simp [dis_dev_put, dis_dev_get]) ?_
        intro hEn
        exact absurd (hcond2.symm.trans hEn) (by decide)
      next hcond2 =>
        simp only [Prod.mk.injEq, Option.some.injEq] at h
        obtain ⟨h1, h2, h3⟩ := h
        subst h1
        refine iff_of_true rfl ?_
        show (discrete_off _).1.load_discrete_state = GPU_ENABLE
        rw [discrete_off_preserves_load]
        rcases oracle_total (cfgRead d) with he | he
        · exact he
        · exact absurd he hcond2

/-- Witness for C2 on a one-device enumeration. -/
theorem init_registers_iff_load_enabled_witness :
    sW2.nbRegistered = true ↔ sW2.load_discrete_state = GPU_ENABLE :=
  init_registers_iff_load_enabled [devA] sW2 tW2 0 (by decide)

lemma scan_dis_none (ds : List PDev) :
    ∀ igd : Option (PDev × Nat), (∀ d ∈ ds, candB d = false) →
      (scanLoop igd none ds).dis = none := by
  induction ds with
  | nil => intro igd _; rfl
  | cons d ds ih =>
    intro igd h
    have hd : candB d = false := h d (List.mem_cons_self d ds)
    have hds : ∀ x ∈ ds, candB x = false := fun x hx => h x (List.mem_cons_of_mem d hx)
    cases hgh : (isGfxClass d.pciClass && d.acpiHandle.isSome) with
    | true =>
      have hparts := hgh
      rw [Bool.and_eq_true] at hparts
      have hv : d.vendor = PCI_VENDOR_ID_INTEL := by
        unfold candB at hd
        rw [hgh, Bool.true_and] at hd
        simpa using hd
      obtain ⟨hdl, hh⟩ := Option.isSome_iff_exists.mp hparts.2
      have hstep : classifyStep (igd, none) d = (some (d, hdl), none) := by
        simp [classifyStep, hparts.1, hh, hv]
      simp only [scanLoop, hgh, if_true, hstep]
      simp only [Option.isSome_none, Bool.and_false, Bool.false_eq_true, if_false]
      exact ih (some (d, hdl)) hds
    | false =>
      simp only [scanLoop, hgh, Bool.false_eq_true, if_false]
      exact ih igd hds

/-- C6: when the enumeration offers no discrete candidate (no
graphics-class device with a resolvable handle and a non-Intel vendor),
startup fails with `-ENODEV` and its trace holds zero firmware calls. -/
theorem init_no_discrete_enodev (devs : List PDev)
    (h : ∀ d ∈ devs, candB d = false) :
    discrete_disabler_init devs = (none, [], -ENODEV) ∧
    (discrete_disabler_init devs).2.1.countP isFw = 0 := by
  have hscan := scan_dis_none devs none h
  have heq : discrete_disabler_init devs = (none, [], -ENODEV) := by
    unfold discrete_disabler_init
    rw [hscan]
  exact ⟨heq, by rw [heq]; rfl⟩

/-- Witness for C6: an Intel graphics device plus a non-graphics device. -/
theorem init_no_discrete_enodev_witness :
    discrete_disabler_init [devIntel, devNonGfx] = (none, [], -ENODEV) ∧
    (discrete_disabler_init [devIntel, devNonGfx]).2.1.countP isFw = 0 :=
  init_no_discrete_enodev [devIntel, devNonGfx] (by decide)

/-- C8: the transitions re-query the oracle before acting. Running
`discrete_off` twice from a powered, unclaimed device evaluates "_OFF"
exactly once across both calls (the second call sees the all-ones read of
the now powered-down device and no-ops), and `discrete_on` on a device
whose oracle reading is Enabled evaluates no firmware method at all. -/
theorem transitions_idempotent :
    (∀ s : Ctl, s.dis.hwOn = true → s.dis.driver = false →
      s.dis.devWord % 4294967296 ≠ allOnes32 →
      ((discrete_off s).2.1 ++ (discrete_off (discrete_off s).1).2.1).countP isFwOff = 1) ∧
    (∀ s : Ctl, get_discrete_state (cfgRead s.dis) = GPU_ENABLE →
      (discrete_on s).2.countP isFw = 0) := by
  constructor
  · intro s h1 h2 h3
    have hcfg : cfgRead s.dis = s.dis.devWord % 4294967296 := by
      unfold cfgRead; rw [if_pos h1]
    have hmm : s.dis.devWord % 4294967296 % 4294967296 = s.dis.devWord % 4294967296 :=
      Nat.mod_mod_of_dvd _ dvd_rfl
    have hEn : get_discrete_state (cfgRead s.dis) = GPU_ENABLE := by
      rw [hcfg]
      exact (oracle_enable_iff _).mpr (by rw [hmm]; exact h3)
    have hne : ¬(get_discrete_state (cfgRead s.dis) = GPU_DISABLE) := by
      rw [hEn]; decide
    have hred1 : discrete_off s =
        ({ s with dis := { s.dis with hwOn := false }, discrete_state := GPU_DISABLE },
         [Act.logOff, Act.fwEval "_OFF"], OffRes.poweredOff) := by
      unfold discrete_off
      rw [if_neg hne, if_neg (by rw [h2]; decide)]
    have hfst : (discrete_off s).2.1 = [Act.logOff, Act.fwEval "_OFF"] := by rw [hred1]
    have hred2 : (discrete_off (discrete_off s).1).2.1 = [Act.logOff] := by
      rw [hred1]
      have hdis : get_discrete_state (cfgRead ({ s with
          dis := { s.dis with hwOn := false },
          discrete_state := GPU_DISABLE } : Ctl).dis) = GPU_DISABLE := by
        show get_discrete_state allOnes32 = GPU_DISABLE
        decide
      unfold discrete_off
      rw [if_pos hdis]
    rw [hfst, hred2]
    decide
  · intro s hEn
    have hred : discrete_on s = (s, [Act.logOn]) := by
      unfold discrete_on; rw [if_pos hEn]
    rw [hred]
    rfl

/-- Witness for C8 on a fresh controller over a powered device. -/
theorem transitions_idempotent_witness :
    ((discrete_off s8).2.1 ++ (discrete_off (discrete_off s8).1).2.1).countP isFwOff = 1 ∧
    (discrete_on s8).2.countP isFw = 0 :=
  ⟨transitions_idempotent.1 s8 rfl rfl (by decide),
   transitions_idempotent.2 s8 (by decide)⟩

lemma handler_prep (e : Nat) (s : Ctl)
    (he : e = PM_HIBERNATION_PREPARE ∨ e = PM_SUSPEND_PREPARE) :
    discrete_pm_handler e s =
      if s.load_discrete_state = GPU_ENABLE ∧ s.discrete_state = GPU_DISABLE then
        ((discrete_on s).1,
         (dis_dev_get s).2 ++ (discrete_on s).2 ++ (dis_dev_put (discrete_on s).1).2, 0)
      else (s, [], 0) := by
  rcases he with he | he <;> subst he <;> rfl

lemma handler_post (e : Nat) (s : Ctl)
    (he : e = PM_POST_HIBERNATION ∨ e = PM_POST_SUSPEND ∨ e = PM_POST_RESTORE) :
    discrete_pm_handler e s =
      if s.load_discrete_state = GPU_ENABLE ∧ s.discrete_state = GPU_ENABLE then
        ((discrete_off s).1,
         (dis_dev_get s).2 ++ (discrete_off s).2.1 ++ (dis_dev_put (discrete_off s).1).2, 0)
      else (s, [], 0) := by
  rcases he with he | he | he <;> subst he <;> rfl

lemma handler_other (e : Nat) (s : Ctl)
    (h1 : ¬(e = PM_HIBERNATION_PREPARE ∨ e = PM_SUSPEND_PREPARE))
    (h2 : ¬(e = PM_POST_HIBERNATION ∨ e = PM_POST_SUSPEND ∨ e = PM_POST_RESTORE)) :
    discrete_pm_handler e s = (s, [], 0) := by
  unfold discrete_pm_handler
  rw [if_neg h1, if_neg h2]

lemma discrete_on_trace (s : Ctl) :
    (discrete_on s).2 = [Act.logOn] ∨ (discrete_on s).2 = [Act.logOn, Act.fwEval "_ON"] := by
  unfold discrete_on
  split_ifs
  · exact Or.inl rfl
  · exact Or.inr rfl

lemma discrete_off_trace (s : Ctl) :
    (discrete_off s).2.1 = [Act.logOff] ∨
    (discrete_off s).2.1 = [Act.logOff, Act.warnRefuse] ∨
    (discrete_off s).2.1 = [Act.logOff, Act.fwEval "_OFF"] := by
  unfold discrete_off
  split_ifs
  · exact Or.inl rfl
  · exact Or.inr (Or.inl rfl)
  · exact Or.inr (Or.inr rfl)

lemma discrete_on_preserves_hasParent (s : Ctl) :
    (discrete_on s).1.dis.hasParent = s.dis.hasParent := by
  unfold discrete_on
  split_ifs <;> rfl

lemma discrete_off_preserves_hasParent (s : Ctl) :
    (discrete_off s).1.dis.hasParent = s.dis.hasParent := by
  unfold discrete_off
  split_ifs <;> rfl

/-- C5: the Sleep-Cycle Coordinator's event matrix. On the two prepare
events `discrete_on` runs exactly when LoadTimeState is Enabled and
CurrentState is Disabled (its entry log is in the trace); on the three
post events `discrete_off` runs exactly when LoadTimeState is Enabled and
CurrentState is Enabled; the pre-restore event is a strict no-op; guard
acquisitions and releases balance in every trace; and whenever a
transition ran on a device with a parent bridge, the trace opens with the
guard acquisition and closes with the guard release. -/
theorem pm_handler_event_matrix (e : Nat) (s : Ctl) :
    ((e = PM_HIBERNATION_PREPARE ∨ e = PM_SUSPEND_PREPARE) →
      ((Act.logOn ∈ (discrete_pm_handler e s).2.1) ↔
        (s.load_discrete_state = GPU_ENABLE ∧ s.discrete_state = GPU_DISABLE)) ∧
      Act.logOff ∉ (discrete_pm_handler e s).2.1) ∧
    ((e = PM_POST_HIBERNATION ∨ e = PM_POST_SUSPEND ∨ e = PM_POST_RESTORE) →
      ((Act.logOff ∈ (discrete_pm_handler e s).2.1) ↔
        (s.load_discrete_state = GPU_ENABLE ∧ s.discrete_state = GPU_ENABLE)) ∧
      Act.logOn ∉ (discrete_pm_handler e s).2.1) ∧
    (e = PM_RESTORE_PREPARE → discrete_pm_handler e s = (s, [], 0)) ∧
    ((discrete_pm_handler e s).2.1.countP isGet =
      (discrete_pm_handler e s).2.1.countP isPut) ∧
    (s.dis.hasParent = true →
      (Act.logOn ∈ (discrete_pm_handler e s).2.1 ∨
        Act.logOff ∈ (discrete_pm_handler e s).2.1) →
      ∃ mid, (discrete_pm_handler e s).2.1 = Act.guardGet :: (mid ++ [Act.guardPut])) := by
  by_cases h1 : e = PM_HIBERNATION_PREPARE ∨ e = PM_SUSPEND_PREPARE
  · have hpost : ¬(e = PM_POST_HIBERNATION ∨ e = PM_POST_SUSPEND ∨ e = PM_POST_RESTORE) := by
      rcases h1 with h | h <;> subst h <;> decide
    have hrp : e ≠ PM_RESTORE_PREPARE := by
      rcases h1 with h | h <;> subst h <;> decide
    have hred := handler_prep e s h1
    by_cases hc : s.load_discrete_state = GPU_ENABLE ∧ s.discrete_state = GPU_DISABLE
    · rw [if_pos hc] at hred
      rw [hred]
      by_cases hp : s.dis.hasParent = true
      · rcases discrete_on_trace s with ht | ht
        · refine ⟨fun _ => ⟨iff_of_true ?_ hc, ?_⟩, fun hx => absurd hx hpost,
                  fun hx => absurd hx hrp, ?_, fun _ _ => ⟨[Act.logOn], ?_⟩⟩
          · simp [dis_dev_get, dis_dev_put, hp, ht, discrete_on_preserves_hasParent]
          · simp [dis_dev_get, dis_dev_put, hp, ht, discrete_on_preserves_hasParent]
          · simp [dis_dev_get, dis_dev_put, hp, ht, discrete_on_preserves_hasParent,
                  List.countP_append, List.countP_cons, List.countP_nil, isGet, isPut]
          · simp [dis_dev_get, dis_dev_put, hp, ht, discrete_on_preserves_hasParent]
        · refine ⟨fun _ => ⟨iff_of_true ?_ hc, ?_⟩, fun hx => absurd hx hpost,
                  fun hx => absurd hx hrp, ?_,
                  fun _ _ => ⟨[Act.logOn, Act.fwEval "_ON"], ?_⟩⟩
          · simp [dis_dev_get, dis_dev_put, hp, ht, discrete_on_preserves_hasParent]
          · simp [dis_dev_get, dis_dev_put, hp, ht, discrete_on_preserves_hasParent]
          · simp [dis_dev_get, dis_dev_put, hp, ht, discrete_on_preserves_hasParent,
                  List.countP_append, List.countP_cons, List.countP_nil, isGet, isPut]
          · simp [dis_dev_get, dis_dev_put, hp, ht, discrete_on_preserves_hasParent]
      · rcases discrete_on_trace s with ht | ht
        · refine ⟨fun _ => ⟨iff_of_true ?_ hc, ?_⟩, fun hx => absurd hx hpost,
                  fun hx => absurd hx hrp, ?_, fun hp2 _ => absurd hp2 hp⟩
          · simp [dis_dev_get, dis_dev_put, hp, ht, discrete_on_preserves_hasParent]
          · simp [dis_dev_get, dis_dev_put, hp, ht, discrete_on_preserves_hasParent]
          · simp [dis_dev_get, dis_dev_put, hp, ht, discrete_on_preserves_hasParent,
                  List.countP_append, List.countP_cons, List.countP_nil, isGet, isPut]
        · refine ⟨fun _ => ⟨iff_of_true ?_ hc, ?_⟩, fun hx => absurd hx hpost,
                  fun hx => absurd hx hrp, ?_, fun hp2 _ => absurd hp2 hp⟩
          · simp [dis_dev_get, dis_dev_put, hp, ht, discrete_on_preserves_hasParent]
          · simp [dis_dev_get, dis_dev_put, hp, ht, discrete_on_preserves_hasParent]
          · simp [dis_dev_get, dis_dev_put, hp, ht, discrete_on_preserves_hasParent,
                  List.countP_append, List.countP_cons, List.countP_nil, isGet, isPut]
    · rw [if_neg hc] at hred
      rw [hred]
      refine ⟨fun _ => ⟨iff_of_false (by simp) hc, by simp⟩, fun hx => absurd hx hpost,
              fun hx => absurd hx hrp, rfl, ?_⟩
      intro _ hx
      rcases hx with hx | hx <;> simp at hx
  · by_cases h2 : e = PM_POST_HIBERNATION ∨ e = PM_POST_SUSPEND ∨ e = PM_POST_RESTORE
    · have hrp : e ≠ PM_RESTORE_PREPARE := by
        rcases h2 with h | h | h <;> subst h <;> decide
      have hred := handler_post e s h2
      by_cases hc : s.load_discrete_state = GPU_ENABLE ∧ s.discrete_state = GPU_ENABLE
      · rw [if_pos hc] at hred
        rw [hred]
        by_cases hp : s.dis.hasParent = true
        · rcases discrete_off_trace s with ht | ht | ht
          · refine ⟨fun hx => absurd hx h1, fun _ => ⟨iff_of_true ?_ hc, ?_⟩,
                    fun hx => absurd hx hrp, ?_, fun _ _ => ⟨[Act.logOff], ?_⟩⟩
            · simp [dis_dev_get, dis_dev_put, hp, ht, discrete_off_preserves_hasParent]
            · simp [dis_dev_get, dis_dev_put, hp, ht, discrete_off_preserves_hasParent]
            · simp [dis_dev_get, dis_dev_put, hp, ht, discrete_off_preserves_hasParent,
                    List.countP_append, List.countP_cons, List.countP_nil, isGet, isPut]
            · simp [dis_dev_get, dis_dev_put, hp, ht, discrete_off_preserves_hasParent]
          · refine ⟨fun hx => absurd hx h1, fun _ => ⟨iff_of_true ?_ hc, ?_⟩,
                    fun hx => absurd hx hrp, ?_,
                    fun _ _ => ⟨[Act.logOff, Act.warnRefuse], ?_⟩⟩
            · simp [dis_dev_get, dis_dev_put, hp, ht, discrete_off_preserves_hasParent]
            · simp [dis_dev_get, dis_dev_put, hp, ht, discrete_off_preserves_hasParent]
            · simp [dis_dev_get, dis_dev_put, hp, ht, discrete_off_preserves_hasParent,
                    List.countP_append, List.countP_cons, List.countP_nil, isGet, isPut]
            · simp [dis_dev_get, dis_dev_put, hp, ht, discrete_off_preserves_hasParent]
          · refine ⟨fun hx => absurd hx h1, fun _ => ⟨iff_of_true ?_ hc, ?_⟩,
                    fun hx => absurd hx hrp, ?_,
                    fun _ _ => ⟨[Act.logOff, Act.fwEval "_OFF"], ?_⟩⟩
            · simp [dis_dev_get, dis_dev_put, hp, ht, discrete_off_preserves_hasParent]
            · simp [dis_dev_get, dis_dev_put, hp, ht, discrete_off_preserves_hasParent]
            · simp [dis_dev_get, dis_dev_put, hp, ht, discrete_off_preserves_hasParent,
                    List.countP_append, List.countP_cons, List.countP_nil, isGet, isPut]
            · simp [dis_dev_get, dis_dev_put, hp, ht, discrete_off_preserves_hasParent]
        · rcases discrete_off_trace s with ht | ht | ht
          · refine ⟨fun hx => absurd hx h1, fun _ => ⟨iff_of_true ?_ hc, ?_⟩,
                    fun hx => absurd hx hrp, ?_, fun hp2 _ => absurd hp2 hp⟩
            · simp [dis_dev_get, dis_dev_put, hp, ht, discrete_off_preserves_hasParent]
            · simp [dis_dev_get, dis_dev_put, hp, ht, discrete_off_preserves_hasParent]
            · simp [dis_dev_get, dis_dev_put, hp, ht, discrete_off_preserves_hasParent,
                    List.countP_append, List.countP_cons, List.countP_nil, isGet, isPut]
          · refine ⟨fun hx => absurd hx h1, fun _ => ⟨iff_of_true ?_ hc, ?_⟩,
                    fun hx => absurd hx hrp, ?_, fun hp2 _ => absurd hp2 hp⟩
            · simp [dis_dev_get, dis_dev_put, hp, ht, discrete_off_preserves_hasParent]
            · simp [dis_dev_get, dis_dev_put, hp, ht, discrete_off_preserves_hasParent]
            · simp [dis_dev_get, dis_dev_put, hp, ht, discrete_off_preserves_hasParent,
                    List.countP_append, List.countP_cons, List.countP_nil, isGet, isPut]
          · refine ⟨fun hx => absurd hx h1, fun _ => ⟨iff_of_true ?_ hc, ?_⟩,
                    fun hx => absurd hx hrp, ?_, fun hp2 _ => absurd hp2 hp⟩
            · simp [dis_dev_get, dis_dev_put, hp, ht, discrete_off_preserves_hasParent]
            · simp [dis_dev_get, dis_dev_put, hp, ht, discrete_off_preserves_hasParent]
            · simp [dis_dev_get, dis_dev_put, hp, ht, discrete_off_preserves_hasParent,
                    List.countP_append, List.countP_cons, List.countP_nil, isGet, isPut]
      · rw [if_neg hc] at hred
        rw [hred]
        refine ⟨fun hx => absurd hx h1, fun _ => ⟨iff_of_false (by simp) hc, by simp⟩,
                fun hx => absurd hx hrp, rfl, ?_⟩
        intro _ hx
        rcases hx with hx | hx <;> simp at hx
    · have hred := handler_other e s h1 h2
      rw [hred]
      refine ⟨fun hx => absurd hx h1, fun hx => absurd hx h2, fun _ => rfl, rfl, ?_⟩
      intro _ hx
      rcases hx with hx | hx <;> simp at hx

/-- Witness for C5: the pre-suspend event on a controller with
LoadTimeState Enabled and CurrentState Disabled runs the enable
transition. -/
theorem pm_handler_event_matrix_witness :
    Act.logOn ∈ (discrete_pm_handler PM_SUSPEND_PREPARE s5).2.1 :=
  ((pm_handler_event_matrix PM_SUSPEND_PREPARE s5).1 (Or.inr rfl)).1.mpr (by decide)

/-- C10: the notifier callback returns 0 for every event code, so it never
vetoes a sleep transition, and on event codes outside the matrix (plus the
deliberate `PM_RESTORE_PREPARE` no-op handled separately in C5) it leaves
the controller state untouched and performs no external action. -/
theorem pm_handler_returns_zero (e : Nat) (s : Ctl) :
    (discrete_pm_handler e s).2.2 = 0 ∧
    ((e ≠ PM_HIBERNATION_PREPARE ∧ e ≠ PM_POST_HIBERNATION ∧ e ≠ PM_SUSPEND_PREPARE ∧
      e ≠ PM_POST_SUSPEND ∧ e ≠ PM_RESTORE_PREPARE ∧ e ≠ PM_POST_RESTORE) →
      discrete_pm_handler e s = (s, [], 0)) := by
  constructor
  · unfold discrete_pm_handler
    split
    · split
      · rfl
      · rfl
    · split
      · split
        · rfl
        · rfl
      · rfl
  · intro hn
    obtain ⟨n1, n2, n3, n4, n5, n6⟩ := hn
    exact handler_other e s (fun hx => hx.elim n1 n3)
      (fun hx => hx.elim n2 (fun hy => hy.elim n4 n6))

/-- Witness for C10 at the unlisted event code 42. -/
theorem pm_handler_returns_zero_witness :
    discrete_pm_handler 42 s5 = (s5, [], 0) :=
  (pm_handler_returns_zero 42 s5).2 (by decide)

lemma classifyStep_skip (st : Option (PDev × Nat) × Option (PDev × Nat)) (d : PDev)
    (h : (isGfxClass d.pciClass && d.acpiHandle.isSome) = false) :
    classifyStep st d = st := by
  unfold classifyStep
  cases hg : isGfxClass d.pciClass with
  | false => simp [hg]
  | true =>
    rw [hg, Bool.true_and] at h
    cases hh : d.acpiHandle with
    | none => simp [hg, hh]
    | some v => rw [hh] at h; simp at h

lemma scanLoop_spec (ds : List PDev) : ∀ igd dis : Option (PDev × Nat),
    ¬(igd.isSome = true ∧ dis.isSome = true) →
    (ds = (scanLoop igd dis ds).processed ++ (scanLoop igd dis ds).remaining ∧
     ((scanLoop igd dis ds).igd, (scanLoop igd dis ds).dis) =
       List.foldl classifyStep (igd, dis) (scanLoop igd dis ds).processed ∧
     ((scanLoop igd dis ds).remaining ≠ [] →
       (scanLoop igd dis ds).igd.isSome = true ∧
         (scanLoop igd dis ds).dis.isSome = true) ∧
     (∀ p q, (scanLoop igd dis ds).processed = p ++ q → q ≠ [] →
       ¬((List.foldl classifyStep (igd, dis) p).1.isSome = true ∧
         (List.foldl classifyStep (igd, dis) p).2.isSome = true))) := by
  induction ds with
  | nil =>
    intro igd dis hnb
    refine ⟨rfl, rfl, fun hr => absurd rfl hr, ?_⟩
    intro p q hpq hq
    simp only [scanLoop] at hpq
    exact absurd (List.append_eq_nil.mp hpq.symm).2 hq
  | cons d ds ih =>
    intro igd dis hnb
    cases hgh : (isGfxClass d.pciClass && d.acpiHandle.isSome) with
    | true =>
      by_cases hb : ((classifyStep (igd, dis) d).1.isSome &&
          (classifyStep (igd, dis) d).2.isSome) = true
      · have hred : scanLoop igd dis (d :: ds) =
            ⟨(classifyStep (igd, dis) d).1, (classifyStep (igd, dis) d).2, [d], ds⟩ := by
          simp only [scanLoop, hgh, if_true, hb]
        rw [hred]
        rw [Bool.and_eq_true] at hb
        refine ⟨rfl, ?_, fun _ => hb, ?_⟩
        · show ((classifyStep (igd, dis) d).1, (classifyStep (igd, dis) d).2) =
            classifyStep (igd, dis) d
          exact Prod.mk.eta
        · intro p q hpq hq
          cases p with
          | nil => exact hnb
          | cons x p2 =>
            injection hpq with hx hrest
            exact absurd (List.append_eq_nil.mp hrest.symm).2 hq
      · have hnb2 : ¬((classifyStep (igd, dis) d).1.isSome = true ∧
            (classifyStep (igd, dis) d).2.isSome = true) := by
          intro hx
          exact hb (by rw [Bool.and_eq_true]; exact hx)
        obtain ⟨ih1, ih2, ih3, ih4⟩ :=
          ih (classifyStep (igd, dis) d).1 (classifyStep (igd, dis) d).2 hnb2
        have hst : classifyStep (igd, dis) d =
            ((classifyStep (igd, dis) d).1, (classifyStep (igd, dis) d).2) :=
          Prod.mk.eta.symm
        have hred : scanLoop igd dis (d :: ds) =
            ⟨(scanLoop (classifyStep (igd, dis) d).1 (classifyStep (igd, dis) d).2 ds).igd,
             (scanLoop (classifyStep (igd, dis) d).1 (classifyStep (igd, dis) d).2 ds).dis,
             d :: (scanLoop (classifyStep (igd, dis) d).1
                    (classifyStep (igd, dis) d).2 ds).processed,
             (scanLoop (classifyStep (igd, dis) d).1
               (classifyStep (igd, dis) d).2 ds).remaining⟩ := by
          simp only [scanLoop, hgh, if_true]
          rw [if_neg hb]
        rw [hred]
        refine ⟨?_, ?_, ih3, ?_⟩
        · rw [List.cons_append]; exact congrArg (List.cons d) ih1
        · rw [List.foldl_cons]
          rw [← hst] at ih2
          exact ih2
        · intro p q hpq hq
          cases p with
          | nil => exact hnb
          | cons x p2 =>
            injection hpq with hx hrest
            subst hx
            rw [List.foldl_cons]
            have h5 := ih4 p2 q hrest hq
            rw [← hst] at h5
            exact h5
    | false =>
      have hstep := classifyStep_skip (igd, dis) d hgh
      obtain ⟨ih1, ih2, ih3, ih4⟩ := ih igd dis hnb
      have hred : scanLoop igd dis (d :: ds) =
          ⟨(scanLoop igd dis ds).igd, (scanLoop igd dis ds).dis,
           d :: (scanLoop igd dis ds).processed, (scanLoop igd dis ds).remaining⟩ := by
        simp only [scanLoop, hgh, Bool.false_eq_true, if_false]
      rw [hred]
      refine ⟨?_, ?_, ih3, ?_⟩
      · rw [List.cons_append]; exact congrArg (List.cons d) ih1
      · rw [List.foldl_cons, hstep]; exact ih2
      · intro p q hpq hq
        cases p with
        | nil => exact hnb
        | cons x p2 =>
          injection hpq with hx hrest
          subst hx
          rw [List.foldl_cons, hstep]
          exact ih4 p2 q hrest hq

lemma foldl_classify_dis (l : List PDev) : ∀ igd dis : Option (PDev × Nat),
    (List.foldl classifyStep (igd, dis) l).2.map Prod.fst =
      match lastCandidate l with
      | some x => some x
      | none => dis.map Prod.fst := by
  induction l with
  | nil => intro igd dis; rfl
  | cons d l ih =>
    intro igd dis
    rw [List.foldl_cons]
    cases hgh : (isGfxClass d.pciClass && d.acpiHandle.isSome) with
    | false =>
      rw [classifyStep_skip (igd, dis) d hgh, ih igd dis]
      have hcb : candB d = false := by
        unfold candB
        rw [hgh, Bool.false_and]
      cases hl : lastCandidate l with
      | some x => simp [lastCandidate, hl]
      | none => simp [lastCandidate, hl, hcb]
    | true =>
      have hparts := hgh
      rw [Bool.and_eq_true] at hparts
      obtain ⟨hdl, hh⟩ := Option.isSome_iff_exists.mp hparts.2
      by_cases hv : d.vendor = PCI_VENDOR_ID_INTEL
      · have hstep : classifyStep (igd, dis) d = (some (d, hdl), dis) := by
          simp [classifyStep, hparts.1, hh, hv]
        rw [hstep, ih (some (d, hdl)) dis]
        have hcb : candB d = false := by
          unfold candB
          rw [hv]
          simp
        cases hl : lastCandidate l with
        | some x => simp [lastCandidate, hl]
        | none => simp [lastCandidate, hl, hcb]
      · have hstep : classifyStep (igd, dis) d = (igd, some (d, hdl)) := by
          simp [classifyStep, hparts.1, hh, hv]
        rw [hstep, ih igd (some (d, hdl))]
        have hcb : candB d = true := by
          unfold candB
          rw [hgh, Bool.true_and]
          exact bne_iff_ne.mpr hv
        cases hl : lastCandidate l with
        | some x => simp [lastCandidate, hl]
        | none => simp [lastCandidate, hl, hcb]

/-- C9: for every enumeration order, the device classified discrete is the
last discrete candidate among the devices the scan actually observed (its
`processed` prefix of the enumeration), and the scan stops early exactly
when both classifications are resolved: if any tail was left unscanned
then both slots are filled, and no strictly shorter prefix of the
processed devices had already filled both. -/
theorem scan_last_candidate_wins (ds : List PDev) :
    ds = (scanLoop none none ds).processed ++ (scanLoop none none ds).remaining ∧
    (scanLoop none none ds).dis.map Prod.fst =
      lastCandidate (scanLoop none none ds).processed ∧
    ((scanLoop none none ds).remaining ≠ [] →
      (scanLoop none none ds).igd.isSome = true ∧
        (scanLoop none none ds).dis.isSome = true) ∧
    (∀ p q, (scanLoop none none ds).processed = p ++ q → q ≠ [] →
      ¬((List.foldl classifyStep ((none : Option (PDev × Nat)),
          (none : Option (PDev × Nat))) p).1.isSome = true ∧
        (List.foldl classifyStep ((none : Option (PDev × Nat)),
          (none : Option (PDev × Nat))) p).2.isSome = true)) := by
  obtain ⟨h1, h2, h3, h4⟩ := scanLoop_spec ds none none (by simp)
  refine ⟨h1, ?_, h3, h4⟩
  have hdis : (scanLoop none none ds).dis =
      (List.foldl classifyStep ((none : Option (PDev × Nat)),
        (none : Option (PDev × Nat))) (scanLoop none none ds).processed).2 :=
    congrArg Prod.snd h2
  rw [hdis, foldl_classify_dis (scanLoop none none ds).processed none none]
  cases hl : lastCandidate (scanLoop none none ds).processed with
  | some x => simp
  | none => simp

/-- Witness for C9 on an enumeration with two discrete candidates around
an integrated device: the scan breaks after the integrated device, and the
discrete slot holds the last candidate it observed. -/
theorem scan_last_candidate_wins_witness :
    (scanLoop none none [devB, devIntel, devA]).dis.map Prod.fst =
      lastCandidate (scanLoop none none [devB, devIntel, devA]).processed ∧
    ((scanLoop none none [devB, devIntel, devA]).igd.isSome = true ∧
      (scanLoop none none [devB, devIntel, devA]).dis.isSome = true) := by
  have h := scan_last_candidate_wins [devB, devIntel, devA]
  exact ⟨h.2.1, h.2.2.1 (by decide)⟩

end DiscreteDisabler
